import Mathlib

/-!
Verification of the search, suggestion and matching routes of a lost-and-found
registry (routes/search.js).  The route handlers are embedded shallowly:
records become structures over `String` and `Int` (dates are epoch
milliseconds, exactly the value of a JS `Date`), the MongoDB queries the
handlers build become executable predicates, and each handler becomes a pure
function from its request parameters and a database snapshot to its response
together with the number of repository reads it performs.

Conventions of the embedding:
  * Query parameters and optional record fields are strings, with `""`
    standing for an absent value; this is faithful because the route code
    only ever tests such values for JS truthiness (where `undefined` and
    `""` behave identically) or uses them under such a guard.
  * `$regex` tests with the `i` option are modelled by `regexTest` on the
    dot/bar/literal fragment; every general theorem about free-text terms is
    stated only for terms free of all ECMAScript pattern metacharacters,
    where full regex semantics coincides with literal matching, and every
    concrete pattern evaluated here lies inside the fragment.
  * A find issued with an Invalid-Date bound is rejected by the repository
    date cast before fetching anything; the search model routes that case to
    the catch-all 500 outcome with zero completed reads.
  * The repository sort (`sort({...: -1})`) and the JS `Array.prototype.sort`
    (stable per the ECMAScript spec) are both modelled by the stable
    descending insertion sort `sortDescBy`.
-/

/-- Tests whether the first list is a prefix of the second, comparing characters
exactly; the helper behind the substring test of JS `String.prototype.includes`. -/
def listStartsWith : List Char → List Char → Bool
  | [], _ => true
  | _ :: _, [] => false
  | a :: as, b :: bs => a == b && listStartsWith as bs

/-- Models JS `hay.includes(needle)` : the needle occurs contiguously in the hay. -/
def jsIncludes (hay needle : List Char) : Bool :=
  match hay with
  | [] => listStartsWith needle []
  | c :: t => listStartsWith needle (c :: t) || jsIncludes t needle

/-- Lower-cases every character of a string, the model of JS `toLowerCase()`. -/
def lowerChars (s : String) : List Char := s.data.map Char.toLower

/-- Case-insensitive character comparison, used by the `i` option of `$regex`. -/
def charEqCI (a b : Char) : Bool := a.toLower == b.toLower

/-- Tests whether the pattern matches a prefix of the text, with the dot matching
any single character and every other pattern character compared case-insensitively. -/
def wildStartsWith : List Char → List Char → Bool
  | [], _ => true
  | _ :: _, [] => false
  | p :: ps, c :: cs => (p == '.' || charEqCI p c) && wildStartsWith ps cs

/-- Tests whether the pattern matches somewhere in the text (unanchored search). -/
def wildOccurs (pat : List Char) : List Char → Bool
  | [] => wildStartsWith pat []
  | c :: t => wildStartsWith pat (c :: t) || wildOccurs pat t

/-- Splits a character list on a separator character; mirrors JS
`String.prototype.split` with a one-character separator (empty pieces kept). -/
def splitOnChar (sep : Char) : List Char → List (List Char)
  | [] => [[]]
  | c :: cs =>
    match splitOnChar sep cs with
    | [] => [[c]]
    | g :: gs => if c == sep then [] :: g :: gs else (c :: g) :: gs

/-- Models a MongoDB `$regex` test with `$options: "i"` on the pattern fragment this
development exercises it on: top-level alternation on the bar character, the dot as
a single-character wildcard, every other character literal, case-insensitive and
unanchored. Full `$regex` interprets the whole ECMAScript pattern syntax; the model
agrees with it on this fragment, and every pattern a general theorem of this file
quantifies over is confined to it — terms free of every metacharacter in
`regexMetaChars` (where full regex semantics is also literal matching), and the
concrete dot/bar patterns evaluated below. Patterns using further metacharacters
are outside the model and appear in no statement. -/
def regexTest (pattern text : List Char) : Bool :=
  (splitOnChar '|' pattern).any (fun alt => wildOccurs alt text)

/-- The characters to which ECMAScript regular-expression patterns give special
meaning. A term containing none of them is matched by a JS regex exactly as a
literal string, which is the regime the general text-clause theorem is stated in. -/
def regexMetaChars : List Char :=
  ['.', '|', '*', '+', '?', '(', ')', '[', ']', '\x7b', '\x7d', '\\', '^', '$']

/-- Case-insensitive literal-substring containment. Modelled from the spec: the
Query Builder section asks that a term match "if the term appears
(case-insensitively) as a substring" of a field; this is that reading, with no
interpretation of pattern metacharacters. -/
def containsCI (hay needle : String) : Bool :=
  wildOccursLit needle.data hay.data
where
  /-- Literal case-insensitive prefix test. -/
  litStartsWith : List Char → List Char → Bool
    | [], _ => true
    | _ :: _, [] => false
    | p :: ps, c :: cs => charEqCI p c && litStartsWith ps cs
  /-- Literal case-insensitive occurrence test. -/
  wildOccursLit (pat : List Char) : List Char → Bool
    | [] => litStartsWith pat []
    | c :: t => litStartsWith pat (c :: t) || wildOccursLit pat t

/-- Reads a run of decimal digit characters as a number; `none` when the list is
empty or holds a non-digit. Part of the JS date-parsing model. -/
def digitsToNat (cs : List Char) : Option Nat :=
  if cs ≠ [] && cs.all Char.isDigit then
    some (cs.foldl (fun a c => a * 10 + (c.toNat - 48)) 0)
  else none

/-- Gregorian leap-year test. -/
def isLeapYear (y : Int) : Bool := (y % 4 == 0 && y % 100 != 0) || y % 400 == 0

/-- Length in days of a month of the Gregorian calendar. -/
def daysInMonth (y m : Int) : Int :=
  if m == 2 then (if isLeapYear y then 29 else 28)
  else if m == 4 || m == 6 || m == 9 || m == 11 then 30
  else 31

/-- Days from the Unix epoch to the given civil date (standard civil-from-days
algorithm, exact for the years this development evaluates it at). -/
def daysFromCivil (y m d : Int) : Int :=
  let y2 := if m ≤ 2 then y - 1 else y
  let era := (if 0 ≤ y2 then y2 else y2 - 399) / 400
  let yoe := y2 - era * 400
  let mp := (m + 9) % 12
  let doy := (153 * mp + 2) / 5 + d - 1
  let doe := yoe * 365 + yoe / 4 - yoe / 100 + doy
  era * 146097 + doe - 719468

/-- Models JS `new Date(string)` on the ISO `YYYY-MM-DD` fragment: the epoch
millisecond timestamp of a well-formed 4-2-2 digit date, `none` otherwise (JS
"Invalid Date", whose time value is NaN). The model is exact on this fragment and
on strings no JS parsing route accepts (such as "not-a-date"); strings JS parses
through its other date formats are outside the fragment, and this development only
ever evaluates `parseDate` at strings whose JS classification coincides with the
fragment's. -/
def parseDate (s : String) : Option Int :=
  match splitOnChar '-' s.data with
  | [ys, ms, ds] =>
    match digitsToNat ys, digitsToNat ms, digitsToNat ds with
    | some yn, some mn, some dn =>
      if ys.length == 4 && ms.length == 2 && ds.length == 2 &&
          1 ≤ mn && mn ≤ 12 && 1 ≤ dn && (dn : Int) ≤ daysInMonth (yn : Int) (mn : Int) then
        some (daysFromCivil (yn : Int) (mn : Int) (dn : Int) * 86400000)
      else none
    | _, _, _ => none
  | _ => none

/-- A lost-item record, with the fields the search routes read. Optional string
fields use `""` for an absent value; dates are epoch milliseconds. -/
structure LostItem where
  id : String
  title : String
  description : String
  category : String
  location : String
  color : String
  brand : String
  size : String
  additionalDetails : String
  dateLost : Int
  status : String
  createdAt : Int
  deriving Repr, DecidableEq

/-- A found-item record, with the fields the search routes read. -/
structure FoundItem where
  id : String
  title : String
  description : String
  category : String
  location : String
  color : String
  brand : String
  size : String
  additionalDetails : String
  dateFound : Int
  status : String
  createdAt : Int
  deriving Repr, DecidableEq

/-- A database snapshot: the two collections the search routes query. -/
structure DB where
  lostItems : List LostItem
  foundItems : List FoundItem
  deriving Repr

/-- Category signal of the match scorer: `if (foundItem.category === lostItem.category) score += 30`. -/
def categoryScore (lostItem : LostItem) (foundItem : FoundItem) : Nat :=
  if foundItem.category == lostItem.category then 30 else 0

/-- Color signal: 25 points when both colors are truthy and
`foundItem.color.toLowerCase().includes(lostItem.color.toLowerCase())`. -/
def colorScore (lostItem : LostItem) (foundItem : FoundItem) : Nat :=
  if lostItem.color != "" && foundItem.color != "" &&
      jsIncludes (lowerChars foundItem.color) (lowerChars lostItem.color) then 25 else 0

/-- Brand signal: 25 points when both brands are truthy and the found brand contains
the lost brand case-insensitively. -/
def brandScore (lostItem : LostItem) (foundItem : FoundItem) : Nat :=
  if lostItem.brand != "" && foundItem.brand != "" &&
      jsIncludes (lowerChars foundItem.brand) (lowerChars lostItem.brand) then 25 else 0

/-- Size signal: 15 points when both sizes are truthy and the found size contains
the lost size case-insensitively. -/
def sizeScore (lostItem : LostItem) (foundItem : FoundItem) : Nat :=
  if lostItem.size != "" && foundItem.size != "" &&
      jsIncludes (lowerChars foundItem.size) (lowerChars lostItem.size) then 15 else 0

/-- Number of words of the lower-cased lost title (split on single spaces, counted
with multiplicity) that also occur among the words of the lower-cased found title:
`lostWords.filter((w) => foundWords.includes(w)).length`. -/
def sharedTitleWordCount (lostTitle foundTitle : String) : Nat :=
  let lostWords := splitOnChar ' ' (lowerChars lostTitle)
  let foundWords := splitOnChar ' ' (lowerChars foundTitle)
  (lostWords.filter (fun w => foundWords.contains w)).length

/-- Title-overlap signal: five points per shared title word. -/
def titleScore (lostItem : LostItem) (foundItem : FoundItem) : Nat :=
  sharedTitleWordCount lostItem.title foundItem.title * 5

/-- Temporal signal: `daysDiff = |dateFound - dateLost| / 86400000`; 10 points when
`daysDiff <= 7`, else 5 when `daysDiff <= 30`, else 0. The real-valued division is
eliminated by comparing millisecond differences against day bounds. -/
def dateScore (lostItem : LostItem) (foundItem : FoundItem) : Nat :=
  let diffMs := (foundItem.dateFound - lostItem.dateLost).natAbs
  if diffMs ≤ 7 * 86400000 then 10
  else if diffMs ≤ 30 * 86400000 then 5
  else 0

/-- The match score of GET /api/search/matches: the plain sum of the six signals,
with no normalization or capping. -/
def matchScore (lostItem : LostItem) (foundItem : FoundItem) : Nat :=
  categoryScore lostItem foundItem + colorScore lostItem foundItem +
    brandScore lostItem foundItem + sizeScore lostItem foundItem +
    titleScore lostItem foundItem + dateScore lostItem foundItem

section StableSort

variable {α : Type} {β : Type} [LinearOrder β]

/-- Inserts an element into a descending-sorted list, placing it after every element
whose key is at least its own; the stable insertion step shared by the repository
sort model and the model of the stable JS `Array.prototype.sort`. -/
def insertDescBy (key : α → β) (x : α) : List α → List α
  | [] => [x]
  | y :: ys => if key y < key x then x :: y :: ys else y :: insertDescBy key x ys

/-- Stable descending sort by key: a later element lands after any earlier element
with an equal key, exactly the guarantee of a stable comparator sort. -/
def sortDescBy (key : α → β) (l : List α) : List α :=
  l.foldl (fun acc x => insertDescBy key x acc) []

end StableSort

/-- The long words of the lost title used to widen the match query:
`lostItem.title.split(" ").filter((w) => w.length > 2)`. -/
def titleWords (lostItem : LostItem) : List (List Char) :=
  (splitOnChar ' ' lostItem.title.data).filter (fun w => 2 < w.length)

/-- Joins word patterns with the bar character: `titleWords.join("|")`. -/
def joinBar (ws : List (List Char)) : List Char :=
  (ws.intersperse ['|']).flatten

/-- The optional clauses of the match query, one per truthy lost-item field
(lines 130-144 of the route). -/
def optionalMatches (lostItem : LostItem) : List (FoundItem → Bool) :=
  (if lostItem.color != "" then [fun f => regexTest lostItem.color.data f.color.data] else []) ++
    (if lostItem.brand != "" then [fun f => regexTest lostItem.brand.data f.brand.data] else []) ++
    (if lostItem.size != "" then [fun f => regexTest lostItem.size.data f.size.data] else []) ++
    (if (titleWords lostItem).length != 0 then
      [fun f => regexTest (joinBar (titleWords lostItem)) f.title.data ||
          regexTest (joinBar (titleWords lostItem)) f.description.data]
    else [])

/-- The coarse eligibility query of GET /api/search/matches:
`{ status: "unclaimed", category: lostItem.category }` conjoined, when any optional
clause exists, with their disjunction (`matchQuery.$or = optionalMatches`). -/
def matchQuery (lostItem : LostItem) (f : FoundItem) : Bool :=
  f.status == "unclaimed" && f.category == lostItem.category &&
    ((optionalMatches lostItem).isEmpty || (optionalMatches lostItem).any (fun p => p f))

/-- The candidate set: found items satisfying the match query, newest `dateFound`
first, capped at 20 (`FoundItem.find(matchQuery).sort({ dateFound: -1 }).limit(20)`). -/
def potentialMatches (lostItem : LostItem) (db : DB) : List FoundItem :=
  (sortDescBy (fun f => f.dateFound) (db.foundItems.filter (matchQuery lostItem))).take 20

/-- A found item paired with its match score, the element shape of the matches list. -/
structure ScoredMatch where
  item : FoundItem
  matchScore : Nat
  deriving Repr, DecidableEq

/-- Scores every candidate:
`potentialMatches.map((foundItem) => ({ ...foundItem.toObject(), matchScore: score }))`. -/
def scoredMatches (lostItem : LostItem) (candidates : List FoundItem) : List ScoredMatch :=
  candidates.map (fun f => { item := f, matchScore := matchScore lostItem f })

/-- Thresholds then ranks:
`scoredMatches.filter((m) => m.matchScore >= 30).sort((a, b) => b.matchScore - a.matchScore)`.
Under the stable JS sort, the numeric comparator is exactly a stable descending sort
on the score. -/
def topMatches (scored : List ScoredMatch) : List ScoredMatch :=
  sortDescBy (fun m => m.matchScore) (scored.filter (fun m => 30 ≤ m.matchScore))

/-- Responses of GET /api/search/matches. -/
inductive MatchesResponse where
  | badRequest (message : String)
  | notFound (message : String)
  | ok (lostItem : LostItem) (matchList : List ScoredMatch)
  deriving Repr, DecidableEq

/-- GET /api/search/matches as a function of the lost-item id parameter (with `""`
for an absent parameter) and the database snapshot; the second component counts the
repository reads performed (the lost-item lookup, then the found-item query). -/
def findMatches (lostItemId : String) (db : DB) : MatchesResponse × Nat :=
  if lostItemId == "" then (.badRequest "Lost item ID required", 0)
  else
    match db.lostItems.find? (fun i => i.id == lostItemId) with
    | none => (.notFound "Lost item not found", 1)
    | some lostItem =>
      (.ok lostItem ((topMatches (scoredMatches lostItem (potentialMatches lostItem db))).take 10), 2)

/-- Query parameters of GET /api/search; `""` stands for an absent parameter. -/
structure SearchParams where
  q : String
  category : String
  color : String
  brand : String
  location : String
  dateFrom : String
  dateTo : String
  type : String
  deriving Repr

/-- The date filter object built when either bound is truthy; each present bound
stores the parse result of its string (`none` inside marks a JS Invalid Date). -/
structure SearchDateFilter where
  gte : Option (Option Int)
  lte : Option (Option Int)
  deriving Repr, DecidableEq

/-- Date-filter construction, lines 51-57 of the route: built whenever either bound
is truthy, with no validation of parseability. -/
def dateFilter (dateFrom dateTo : String) : Option SearchDateFilter :=
  if dateFrom != "" || dateTo != "" then
    some { gte := if dateFrom != "" then some (parseDate dateFrom) else none,
           lte := if dateTo != "" then some (parseDate dateTo) else none }
  else none

/-- Evaluation of the date filter on a record date, inclusive bounds. The
Invalid-Date branches are never exercised: a find issued with a filter carrying an
Invalid Date is rejected by the repository's date cast before any record is
evaluated (see `search`), so the value returned there is unobservable. -/
def inDateRange (df : SearchDateFilter) (d : Int) : Bool :=
  (match df.gte with
   | none => true
   | some none => false
   | some (some t) => t ≤ d) &&
    (match df.lte with
     | none => true
     | some none => false
     | some (some t) => d ≤ t)

/-- The free-text clause of GET /api/search: an `$or` of case-insensitive regex
tests on title, description and additionalDetails. -/
def textSearch (q : String) (title description additionalDetails : String) : Bool :=
  regexTest q.data title.data || regexTest q.data description.data ||
    regexTest q.data additionalDetails.data

/-- The lost-collection search predicate: the conjunction of the text clause (when
the term is truthy) and every present structured filter, with dates on `dateLost`. -/
def lostSearchPred (p : SearchParams) (i : LostItem) : Bool :=
  (p.q == "" || textSearch p.q i.title i.description i.additionalDetails) &&
    (p.category == "" || i.category == p.category) &&
    (p.color == "" || regexTest p.color.data i.color.data) &&
    (p.brand == "" || regexTest p.brand.data i.brand.data) &&
    (p.location == "" || regexTest p.location.data i.location.data) &&
    (match dateFilter p.dateFrom p.dateTo with
     | none => true
     | some df => inDateRange df i.dateLost)

/-- The found-collection search predicate, identical but with dates on `dateFound`. -/
def foundSearchPred (p : SearchParams) (i : FoundItem) : Bool :=
  (p.q == "" || textSearch p.q i.title i.description i.additionalDetails) &&
    (p.category == "" || i.category == p.category) &&
    (p.color == "" || regexTest p.color.data i.color.data) &&
    (p.brand == "" || regexTest p.brand.data i.brand.data) &&
    (p.location == "" || regexTest p.location.data i.location.data) &&
    (match dateFilter p.dateFrom p.dateTo with
     | none => true
     | some df => inDateRange df i.dateFound)

/-- Response body of GET /api/search: each collection key is present exactly when
the type selector includes that collection. -/
structure SearchResult where
  lostItems : Option (List LostItem)
  foundItems : Option (List FoundItem)
  deriving Repr, DecidableEq

/-- Tests whether a constructed date filter carries an Invalid-Date bound. A find
issued with such a filter is rejected by the repository layer: the mongoose date
cast refuses an Invalid Date (NaN time value) in a query on a schema `Date` path,
so the find call rejects before fetching anything. -/
def hasInvalidBound : Option SearchDateFilter → Bool
  | none => false
  | some f => f.gte == some none || f.lte == some none

/-- Outcomes of GET /api/search: a normal result body, or the 500
"Internal server error" produced by the route's catch-all when a repository call
rejects. The route has no validation branch of any kind, so no validation failure
is possible. -/
inductive SearchResponse where
  | ok (result : SearchResult)
  | serverError
  deriving Repr, DecidableEq

/-- GET /api/search: when some collection is selected and the constructed date
filter carries an Invalid-Date bound, the first find issued rejects at the
repository's date cast and the catch-all answers the 500 internal error — no fetch
completes. Otherwise each selected collection is filtered by its predicate, sorted
newest `createdAt` first, capped at 50. The second component counts COMPLETED
repository reads (zero on the cast-error path). -/
def search (p : SearchParams) (db : DB) : SearchResponse × Nat :=
  let lostSelected := p.type == "all" || p.type == "lost" || p.type == ""
  let foundSelected := p.type == "all" || p.type == "found" || p.type == ""
  if (lostSelected || foundSelected) && hasInvalidBound (dateFilter p.dateFrom p.dateTo) then
    (.serverError, 0)
  else
    let lostPart := if lostSelected then
        some ((sortDescBy (fun i => i.createdAt) (db.lostItems.filter (lostSearchPred p))).take 50)
      else none
    let foundPart := if foundSelected then
        some ((sortDescBy (fun i => i.createdAt) (db.foundItems.filter (foundSearchPred p))).take 50)
      else none
    (.ok { lostItems := lostPart, foundItems := foundPart },
      (if lostSelected then 1 else 0) + (if foundSelected then 1 else 0))

/-- First-occurrence deduplication: the JS `Set` insertion-order semantics. -/
def dedupFirst (l : List String) : List String :=
  l.foldl (fun acc s => if acc.contains s then acc else acc ++ [s]) []

/-- GET /api/search/suggestions: a fragment that is absent or shorter than two
characters short-circuits to an empty list with no repository read; otherwise title
suggestions (gated per collection by the type selector, capped at 10 each) and
distinct non-empty brand values (from both collections, unconditionally) matching
the fragment case-insensitively are accumulated into an insertion-ordered set and
capped at 10. The second component counts repository reads. -/
def suggest (q ty : String) (db : DB) : List String × Nat :=
  if q == "" || q.length < 2 then ([], 0)
  else
    let lostSelected := ty == "all" || ty == "lost" || ty == ""
    let foundSelected := ty == "all" || ty == "found" || ty == ""
    let lostTitles := if lostSelected then
        ((db.lostItems.filter (fun i => regexTest q.data i.title.data)).take 10).map
          (fun i => i.title)
      else []
    let foundTitles := if foundSelected then
        ((db.foundItems.filter (fun i => regexTest q.data i.title.data)).take 10).map
          (fun i => i.title)
      else []
    let brands :=
      dedupFirst ((db.lostItems.filter (fun i => regexTest q.data i.brand.data)).map
        (fun i => i.brand))
    let foundBrands :=
      dedupFirst ((db.foundItems.filter (fun i => regexTest q.data i.brand.data)).map
        (fun i => i.brand))
    ((dedupFirst (lostTitles ++ foundTitles ++ brands.filter (fun b => b != "") ++
        foundBrands.filter (fun b => b != ""))).take 10,
      (if lostSelected then 1 else 0) + (if foundSelected then 1 else 0) + 2)

/-- The lost item of the end-to-end scenario in the spec (2024-01-15 as epoch ms). -/
def lostIphone : LostItem :=
  { id := "L1", title := "iPhone 14 Pro", description := "Lost my phone",
    category := "Electronics", location := "Library",
    color := "Black", brand := "Apple", size := "",
    additionalDetails := "", dateLost := 19737 * 86400000,
    status := "active", createdAt := 1 }

/-- The found item of the end-to-end scenario (2024-01-18 as epoch ms). -/
def foundIphone : FoundItem :=
  { id := "F1", title := "iPhone 14", description := "Found a phone",
    category := "Electronics", location := "Front desk",
    color := "Black", brand := "Apple", size := "",
    additionalDetails := "", dateFound := 19740 * 86400000,
    status := "unclaimed", createdAt := 2 }

/-- The database snapshot of the end-to-end scenario. -/
def scenarioDB : DB := { lostItems := [lostIphone], foundItems := [foundIphone] }

/-- A lost/found pair with identical category, equal dates and identical but EMPTY
color, brand and size on both sides. -/
def plainLost : LostItem :=
  { id := "L2", title := "aa", description := "some keys", category := "Keys",
    location := "hall", color := "", brand := "", size := "",
    additionalDetails := "", dateLost := 0, status := "active", createdAt := 0 }

/-- The found half of the all-empty-optional-fields pair. -/
def plainFound : FoundItem :=
  { id := "F2", title := "bb", description := "keys on a ring", category := "Keys",
    location := "yard", color := "", brand := "", size := "",
    additionalDetails := "", dateFound := 0, status := "unclaimed", createdAt := 0 }

/-- A lost/found pair with every optional field identical and non-empty and equal
dates, instantiating the closed-form score. -/
def fullLost : LostItem :=
  { id := "L3", title := "red bag", description := "a bag", category := "Accessories",
    location := "gym", color := "Red", brand := "Acme", size := "M",
    additionalDetails := "", dateLost := 5 * 86400000, status := "active", createdAt := 0 }

/-- The found half of the all-fields-identical pair. -/
def fullFound : FoundItem :=
  { id := "F3", title := "red bag", description := "found a bag", category := "Accessories",
    location := "gym", color := "Red", brand := "Acme", size := "M",
    additionalDetails := "", dateFound := 5 * 86400000, status := "unclaimed", createdAt := 0 }

/-- A pair whose lost color strictly contains the found color as a proper substring,
exercising the direction of the containment test. -/
def dirLost : LostItem :=
  { id := "L4", title := "jacket", description := "warm", category := "Clothing",
    location := "cafe", color := "dark black", brand := "", size := "",
    additionalDetails := "", dateLost := 0, status := "active", createdAt := 0 }

/-- The found half of the direction-test pair. -/
def dirFound : FoundItem :=
  { id := "F4", title := "jacket", description := "a jacket", category := "Clothing",
    location := "cafe", color := "black", brand := "", size := "",
    additionalDetails := "", dateFound := 0, status := "unclaimed", createdAt := 0 }

/-- A found item whose brand exists only in the found collection. -/
def sonyFound : FoundItem :=
  { id := "F5", title := "headset", description := "over-ear", category := "Electronics",
    location := "lab", color := "", brand := "Sony", size := "",
    additionalDetails := "", dateFound := 0, status := "unclaimed", createdAt := 0 }

/-- A database with an empty lost collection and one found item branded Sony. -/
def suggestDB : DB := { lostItems := [], foundItems := [sonyFound] }

/-- An empty database snapshot. -/
def emptyDB : DB := { lostItems := [], foundItems := [] }

/-- Search parameters whose only set field is an unparseable dateFrom bound. -/
def badDateParams : SearchParams :=
  { q := "", category := "", color := "", brand := "", location := "",
    dateFrom := "not-a-date", dateTo := "", type := "" }

/-- Search parameters whose free-text term carries a dot metacharacter. -/
def dotParams : SearchParams :=
  { q := "a.c", category := "", color := "", brand := "", location := "",
    dateFrom := "", dateTo := "", type := "" }

/-- A lost item whose title is "abc": no literal "a.c" occurs in any field. -/
def abcLost : LostItem :=
  { id := "L5", title := "abc", description := "", category := "Other",
    location := "road", color := "", brand := "", size := "",
    additionalDetails := "", dateLost := 0, status := "active", createdAt := 0 }

/-- The five structured filters of the lost-collection search predicate, named so
the conjunction shape of the predicate can be stated: category exact, color, brand
and location as case-insensitive regex tests, and the date-range clause on
`dateLost`. -/
def structuredLostFilters (p : SearchParams) (i : LostItem) : Bool :=
  (p.category == "" || i.category == p.category) &&
    (p.color == "" || regexTest p.color.data i.color.data) &&
    (p.brand == "" || regexTest p.brand.data i.brand.data) &&
    (p.location == "" || regexTest p.location.data i.location.data) &&
    (match dateFilter p.dateFrom p.dateTo with
     | none => true
     | some df => inDateRange df i.dateLost)

example : jsIncludes "iphone 14".data "iphone".data = true := by decide

example : regexTest "iPhone|Pro".data "approved item".data = true := by decide

example : regexTest "a.c".data "xxabcx".data = true := by decide

example : parseDate "2024-01-15" = some (19737 * 86400000) := by decide

example : parseDate "not-a-date" = none := by decide

example : sharedTitleWordCount "iPhone 14 Pro" "iPhone 14" = 2 := by decide

example : matchScore lostIphone foundIphone = 100 := by decide

example :
    findMatches "L1" scenarioDB =
      (.ok lostIphone [{ item := foundIphone, matchScore := 100 }], 2) := by decide

section StableSortLemmas

variable {α : Type} {β : Type} [LinearOrder β] (key : α → β)

theorem mem_insertDescBy (x z : α) (l : List α) :
    z ∈ insertDescBy key x l ↔ z = x ∨ z ∈ l := by
  induction l with
  | nil => simp [insertDescBy]
  | cons y ys ih =>
    by_cases h : key y < key x
    · simp [insertDescBy, h, List.mem_cons]
    · simp [insertDescBy, h, List.mem_cons, ih]
      tauto

theorem insertDescBy_perm (x : α) (l : List α) :
    (insertDescBy key x l).Perm (x :: l) := by
  induction l with
  | nil => simp [insertDescBy]
  | cons y ys ih =>
    by_cases h : key y < key x
    · simp [insertDescBy, h]
    · rw [insertDescBy, if_neg h]
      exact (ih.cons y).trans (List.Perm.swap x y ys)

theorem foldl_insertDescBy_perm :
    ∀ (l acc : List α),
      (l.foldl (fun a x => insertDescBy key x a) acc).Perm (acc ++ l)
  | [], acc => by simp
  | x :: xs, acc => by
    rw [List.foldl_cons]
    refine (foldl_insertDescBy_perm xs (insertDescBy key x acc)).trans ?_
    refine (((insertDescBy_perm key x acc).append_right xs).trans ?_)
    exact List.perm_middle.symm

theorem sortDescBy_perm (l : List α) : (sortDescBy key l).Perm l := by
  simpa using foldl_insertDescBy_perm key l []

theorem mem_sortDescBy (x : α) (l : List α) : x ∈ sortDescBy key l ↔ x ∈ l :=
  (sortDescBy_perm key l).mem_iff

theorem insertDescBy_pairwise (S : α → α → Prop) (x : α) (l : List α)
    (hl : l.Pairwise (fun a b => key b < key a ∨ (key a = key b ∧ S a b)))
    (hx : ∀ y ∈ l, S y x) :
    (insertDescBy key x l).Pairwise (fun a b => key b < key a ∨ (key a = key b ∧ S a b)) := by
  induction l with
  | nil => simp [insertDescBy]
  | cons y ys ih =>
    rcases List.pairwise_cons.mp hl with ⟨hy, hys⟩
    by_cases h : key y < key x
    · rw [insertDescBy, if_pos h]
      refine List.Pairwise.cons ?_ hl
      intro z hz
      rcases List.mem_cons.mp hz with rfl | hz2
      · exact Or.inl h
      · rcases hy z hz2 with h1 | h1
        · exact Or.inl (h1.trans h)
        · exact Or.inl (h1.1 ▸ h)
    · rw [insertDescBy, if_neg h]
      refine List.Pairwise.cons ?_ (ih hys (fun y2 hy2 => hx y2 (List.mem_cons_of_mem y hy2)))
      intro z hz
      rcases (mem_insertDescBy key x z ys).mp hz with rfl | hz2
      · rcases lt_or_eq_of_le (not_lt.mp h) with hlt | heq
        · exact Or.inl hlt
        · exact Or.inr ⟨heq.symm, hx y (List.mem_cons_self y ys)⟩
      · exact hy z hz2

theorem foldl_insertDescBy_pairwise (S : α → α → Prop) :
    ∀ (l acc : List α),
      acc.Pairwise (fun a b => key b < key a ∨ (key a = key b ∧ S a b)) →
      (∀ y ∈ acc, ∀ z ∈ l, S y z) → l.Pairwise S →
      (l.foldl (fun a x => insertDescBy key x a) acc).Pairwise
        (fun a b => key b < key a ∨ (key a = key b ∧ S a b))
  | [], _, hacc, _, _ => hacc
  | x :: xs, acc, hacc, hsep, hl => by
    rw [List.foldl_cons]
    rcases List.pairwise_cons.mp hl with ⟨hxhd, hxs⟩
    refine foldl_insertDescBy_pairwise S xs (insertDescBy key x acc) ?_ ?_ hxs
    · exact insertDescBy_pairwise key S x acc hacc
        (fun y hy => hsep y hy x (List.mem_cons_self x xs))
    · intro y hy z hz
      rcases (mem_insertDescBy key x y acc).mp hy with rfl | hy2
      · exact hxhd z hz
      · exact hsep y hy2 z (List.mem_cons_of_mem x hz)

theorem sortDescBy_pairwise (S : α → α → Prop) (l : List α) (hl : l.Pairwise S) :
    (sortDescBy key l).Pairwise (fun a b => key b < key a ∨ (key a = key b ∧ S a b)) :=
  foldl_insertDescBy_pairwise key S l [] List.Pairwise.nil (by simp) hl

theorem sortDescBy_sorted (l : List α) :
    (sortDescBy key l).Pairwise (fun a b => key b ≤ key a) := by
  have h0 : l.Pairwise (fun _ _ => True) :=
    List.pairwise_iff_forall_sublist.mpr (by simp)
  refine (sortDescBy_pairwise key (fun _ _ => True) l h0).imp ?_
  rintro a b (h | h)
  · exact le_of_lt h
  · exact le_of_eq h.1.symm

end StableSortLemmas

section StableSortFilter

variable {α : Type} {β : Type} [LinearOrder β] (key : α → β)

theorem insertDescBy_sorted (x : α) (l : List α)
    (hl : l.Pairwise (fun a b => key b ≤ key a)) :
    (insertDescBy key x l).Pairwise (fun a b => key b ≤ key a) := by
  have hl2 : l.Pairwise (fun a b => key b < key a ∨ (key a = key b ∧ True)) :=
    hl.imp (fun h => (lt_or_eq_of_le h).imp id (fun e => ⟨e.symm, trivial⟩))
  refine (insertDescBy_pairwise key (fun _ _ => True) x l hl2 (fun _ _ => trivial)).imp ?_
  rintro a b (h | h)
  · exact le_of_lt h
  · exact le_of_eq h.1.symm

theorem filter_insertDescBy_neg (p : α → Bool) (x : α) (l : List α) (hx : p x = false) :
    (insertDescBy key x l).filter p = l.filter p := by
  induction l with
  | nil => simp [insertDescBy, hx]
  | cons y ys ih =>
    by_cases h : key y < key x
    · simp [insertDescBy, h, List.filter_cons, hx]
    · rw [insertDescBy, if_neg h]
      simp [List.filter_cons, ih]

theorem filter_insertDescBy_keyEq (s : β) (x : α) (l : List α)
    (hl : l.Pairwise (fun a b => key b ≤ key a)) (hx : key x = s) :
    (insertDescBy key x l).filter (fun z => decide (key z = s)) =
      l.filter (fun z => decide (key z = s)) ++ [x] := by
  induction l with
  | nil => simp [insertDescBy, hx]
  | cons y ys ih =>
    rcases List.pairwise_cons.mp hl with ⟨hy, hys⟩
    by_cases h : key y < key x
    · rw [insertDescBy, if_pos h]
      have hnil : (y :: ys).filter (fun z => decide (key z = s)) = [] := by
        rw [List.filter_eq_nil_iff]
        intro a ha
        rcases List.mem_cons.mp ha with rfl | ha2
        · simp [(hx ▸ h).ne]
        · have : key a ≤ key y := hy a ha2
          simp [((this.trans_lt h).trans_eq hx).ne]
      rw [hnil, List.filter_cons]
      simp [hx, hnil]
    · rw [insertDescBy, if_neg h]
      rw [List.filter_cons, List.filter_cons]
      by_cases hpy : key y = s
      · simp [hpy, ih hys]
      · simp [hpy, ih hys]

theorem filter_foldl_insertDescBy (s : β) :
    ∀ (l acc : List α), acc.Pairwise (fun a b => key b ≤ key a) →
      (l.foldl (fun a x => insertDescBy key x a) acc).filter (fun z => decide (key z = s)) =
        acc.filter (fun z => decide (key z = s)) ++ l.filter (fun z => decide (key z = s))
  | [], acc, _ => by simp
  | x :: xs, acc, hacc => by
    rw [List.foldl_cons,
      filter_foldl_insertDescBy s xs (insertDescBy key x acc) (insertDescBy_sorted key x acc hacc)]
    by_cases hx : key x = s
    · rw [filter_insertDescBy_keyEq key s x acc hacc hx, List.filter_cons]
      simp [hx, List.append_assoc]
    · rw [filter_insertDescBy_neg key _ x acc (by simp [hx]), List.filter_cons]
      simp [hx]

theorem sortDescBy_filter_key (s : β) (l : List α) :
    (sortDescBy key l).filter (fun z => decide (key z = s)) =
      l.filter (fun z => decide (key z = s)) := by
  simpa using filter_foldl_insertDescBy key s l [] List.Pairwise.nil

end StableSortFilter

theorem listStartsWith_self : ∀ (l : List Char), listStartsWith l l = true
  | [] => rfl
  | c :: t => by simp [listStartsWith, listStartsWith_self t]

theorem jsIncludes_self (l : List Char) : jsIncludes l l = true := by
  cases l with
  | nil => rfl
  | cons c t => simp [jsIncludes, listStartsWith_self]

theorem splitOnChar_no_sep (sep : Char) :
    ∀ (l : List Char), sep ∉ l → splitOnChar sep l = [l]
  | [], _ => rfl
  | c :: cs, h => by
    have hc : (c == sep) = false := by
      simp only [List.mem_cons, not_or] at h
      simp [Ne.symm h.1]
    rw [splitOnChar, splitOnChar_no_sep sep cs (fun hm => h (List.mem_cons_of_mem c hm))]
    simp [hc]

theorem wildStartsWith_no_dot :
    ∀ (pat txt : List Char), '.' ∉ pat →
      wildStartsWith pat txt = containsCI.litStartsWith pat txt
  | [], _, _ => rfl
  | _ :: _, [], _ => rfl
  | p :: ps, c :: cs, h => by
    have hp : (p == '.') = false := by
      simp only [List.mem_cons, not_or] at h
      simp [Ne.symm h.1]
    rw [wildStartsWith, containsCI.litStartsWith, hp,
      wildStartsWith_no_dot ps cs (fun hm => h (List.mem_cons_of_mem p hm))]
    simp

theorem wildOccurs_no_dot (pat : List Char) :
    ∀ (txt : List Char), '.' ∉ pat →
      wildOccurs pat txt = containsCI.wildOccursLit pat txt
  | [], h => by
    rw [wildOccurs, containsCI.wildOccursLit, wildStartsWith_no_dot pat [] h]
  | c :: t, h => by
    rw [wildOccurs, containsCI.wildOccursLit, wildStartsWith_no_dot pat (c :: t) h,
      wildOccurs_no_dot pat t h]

theorem regexTest_no_meta (pat txt : List Char) (hdot : '.' ∉ pat) (hbar : '|' ∉ pat) :
    regexTest pat txt = containsCI.wildOccursLit pat txt := by
  rw [regexTest, splitOnChar_no_sep '|' pat hbar, List.any_cons, List.any_nil,
    wildOccurs_no_dot pat txt hdot]
  simp

/-- Claim C10: when the lost-item identifier parameter of GET /api/search/matches is
absent or empty, the handler fails with the 400 validation error message
"Lost item ID required" and performs zero repository reads: neither the lost-item
lookup nor the found-item query runs. -/
theorem findMatches_missing_id (db : DB) :
    findMatches "" db = (.badRequest "Lost item ID required", 0) := by
  rfl

/-- Claim C7: a suggestion request whose fragment is absent or shorter than two
characters returns an empty suggestion list immediately, with zero repository
queries performed. -/
theorem suggest_short_fragment (q ty : String) (db : DB) (h : q = "" ∨ q.length < 2) :
    suggest q ty db = ([], 0) := by
  rcases h with rfl | h
  · rfl
  · simp [suggest, h]

/-- Witness for the short-fragment suggestion claim at the one-character fragment. -/
theorem suggest_short_fragment_witness : suggest "a" "all" suggestDB = ([], 0) :=
  suggest_short_fragment "a" "all" suggestDB (Or.inr (by decide))

/-- Claim C2 (amended): on the spec's end-to-end scenario pair the match scorer
yields exactly 100 = 30 (category) + 25 (color) + 25 (brand) + 5 x 2 (the two shared
title words "iphone" and "14") + 10 (three days apart), and the found item appears
in the findMatches response with matchScore 100. -/
theorem scenario_score_100 :
    matchScore lostIphone foundIphone = 100 ∧
    findMatches "L1" scenarioDB =
      (.ok lostIphone [{ item := foundIphone, matchScore := 100 }], 2) := by
  decide

/-- Claim C2 counterexample: the scenario pair scores 100, not 105 — the lost title
"iPhone 14 Pro" shares exactly two words with the found title "iPhone 14", so the
single match in the findMatches response carries matchScore 100 and no entry of the
response carries matchScore 105. -/
theorem scenario_score_not_105 :
    matchScore lostIphone foundIphone ≠ 105 ∧
    sharedTitleWordCount lostIphone.title foundIphone.title = 2 ∧
    (findMatches "L1" scenarioDB).1 =
      .ok lostIphone [{ item := foundIphone, matchScore := 100 }] := by
  decide

/-- Claim C1 (amended): the match score is the plain sum of the six independent
signal scores with no normalization or capping; and every pair with equal category,
equal NON-EMPTY color, brand and size, and dateFound = dateLost scores exactly
30+25+25+15+10 plus five points per shared title word. (Amendment: the closed form
requires the optional fields to be non-empty — identical but absent fields award
no points.) -/
theorem matchScore_sum_closed_form :
    (∀ (lostItem : LostItem) (foundItem : FoundItem),
      matchScore lostItem foundItem =
        categoryScore lostItem foundItem + colorScore lostItem foundItem +
          brandScore lostItem foundItem + sizeScore lostItem foundItem +
          titleScore lostItem foundItem + dateScore lostItem foundItem) ∧
    (∀ (lostItem : LostItem) (foundItem : FoundItem),
      foundItem.category = lostItem.category →
      foundItem.color = lostItem.color → lostItem.color ≠ "" →
      foundItem.brand = lostItem.brand → lostItem.brand ≠ "" →
      foundItem.size = lostItem.size → lostItem.size ≠ "" →
      foundItem.dateFound = lostItem.dateLost →
      matchScore lostItem foundItem =
        30 + 25 + 25 + 15 + 10 +
          5 * sharedTitleWordCount lostItem.title foundItem.title) := by
  refine ⟨fun l f => rfl, fun l f hcat hcol hcoln hbr hbrn hsz hszn hdate => ?_⟩
  have h1 : categoryScore l f = 30 := by simp [categoryScore, hcat]
  have h2 : colorScore l f = 25 := by simp [colorScore, hcol, hcoln, jsIncludes_self]
  have h3 : brandScore l f = 25 := by simp [brandScore, hbr, hbrn, jsIncludes_self]
  have h4 : sizeScore l f = 15 := by simp [sizeScore, hsz, hszn, jsIncludes_self]
  have h6 : dateScore l f = 10 := by simp [dateScore, hdate]
  rw [matchScore, h1, h2, h3, h4, h6, titleScore]
  omega

/-- Witness for the amended C1 closed form at a concrete pair whose optional fields
are all identical and non-empty and whose dates coincide. -/
theorem matchScore_sum_closed_form_witness :
    matchScore fullLost fullFound =
      30 + 25 + 25 + 15 + 10 + 5 * sharedTitleWordCount fullLost.title fullFound.title :=
  matchScore_sum_closed_form.2 fullLost fullFound (by decide) (by decide) (by decide)
    (by decide) (by decide) (by decide) (by decide) (by decide)

/-- Claim C1 counterexample: a pair with identical category, identical color, brand
and size (all three empty on both sides) and dateFound = dateLost scores 40, not
30+25+25+15+10 plus five points per shared title word — identical but absent
optional fields award nothing. -/
theorem matchScore_closed_form_fails :
    plainLost.category = plainFound.category ∧ plainFound.color = plainLost.color ∧
    plainFound.brand = plainLost.brand ∧ plainFound.size = plainLost.size ∧
    plainFound.dateFound = plainLost.dateLost ∧
    matchScore plainLost plainFound = 40 ∧
    matchScore plainLost plainFound ≠
      30 + 25 + 25 + 15 + 10 + 5 * sharedTitleWordCount plainLost.title plainFound.title := by
  decide

/-- Claim C5: the color, brand and size signals are directional. With both fields
present, each signal awards its points exactly when the FOUND field contains the
LOST field as a case-insensitive substring, never the reverse; at a pair whose lost
color "dark black" strictly contains the found color "black", the color signal
awards 0 even though the reverse containment holds. -/
theorem signal_containment_directional :
    (∀ (lostItem : LostItem) (foundItem : FoundItem),
      lostItem.color ≠ "" → foundItem.color ≠ "" →
      (colorScore lostItem foundItem = 25 ↔
        jsIncludes (lowerChars foundItem.color) (lowerChars lostItem.color) = true)) ∧
    (∀ (lostItem : LostItem) (foundItem : FoundItem),
      lostItem.brand ≠ "" → foundItem.brand ≠ "" →
      (brandScore lostItem foundItem = 25 ↔
        jsIncludes (lowerChars foundItem.brand) (lowerChars lostItem.brand) = true)) ∧
    (∀ (lostItem : LostItem) (foundItem : FoundItem),
      lostItem.size ≠ "" → foundItem.size ≠ "" →
      (sizeScore lostItem foundItem = 15 ↔
        jsIncludes (lowerChars foundItem.size) (lowerChars lostItem.size) = true)) ∧
    (colorScore dirLost dirFound = 0 ∧
      jsIncludes (lowerChars dirLost.color) (lowerChars dirFound.color) = true ∧
      dirLost.color ≠ dirFound.color) := by
  refine ⟨?_, ?_, ?_, by decide⟩
  · intro l f h1 h2
    rcases Bool.eq_false_or_eq_true (jsIncludes (lowerChars f.color) (lowerChars l.color))
      with hj | hj <;> simp [colorScore, h1, h2, hj]
  · intro l f h1 h2
    rcases Bool.eq_false_or_eq_true (jsIncludes (lowerChars f.brand) (lowerChars l.brand))
      with hj | hj <;> simp [brandScore, h1, h2, hj]
  · intro l f h1 h2
    rcases Bool.eq_false_or_eq_true (jsIncludes (lowerChars f.size) (lowerChars l.size))
      with hj | hj <;> simp [sizeScore, h1, h2, hj]

/-- Witness for the directional-containment claim: the color iff at the scenario
pair, plus the zero-point direction instance. -/
theorem signal_containment_directional_witness :
    (colorScore lostIphone foundIphone = 25 ↔
      jsIncludes (lowerChars foundIphone.color) (lowerChars lostIphone.color) = true) ∧
    colorScore dirLost dirFound = 0 :=
  ⟨signal_containment_directional.1 lostIphone foundIphone (by decide) (by decide),
    signal_containment_directional.2.2.2.1⟩

/-- Claim C6 counterexample: at the malformed bound dateFrom = "not-a-date" (a
string no JS date-parsing route accepts) the search route does not fail with a
validation error, and certainly not before predicate construction: the date filter
IS constructed, carrying the Invalid Date, and the response is the catch-all 500
internal error raised when the repository's date cast rejects the selected find. -/
theorem search_malformed_date_no_validation :
    dateFilter badDateParams.dateFrom badDateParams.dateTo =
      some { gte := some none, lte := none } ∧
    (search badDateParams emptyDB).1 = .serverError := by
  decide

/-- Claim C6 (amended): a malformed date bound is not rejected by any validation.
At the representative rejected bound dateFrom = "not-a-date", for every database
snapshot: the date filter is constructed carrying the Invalid Date, the selected
find is then rejected by the repository's date cast, the route's catch-all answers
the 500 internal error, and no record fetch completes. -/
theorem search_malformed_date_server_error (db : DB) :
    dateFilter badDateParams.dateFrom badDateParams.dateTo ≠ none ∧
    search badDateParams db = (.serverError, 0) :=
  ⟨by decide, rfl⟩

/-- Claim C8 counterexample: with target selector "lost", the brand value "Sony" —
present only in the FOUND collection, the lost collection being empty — still
appears among the suggestions, because the brand queries ignore the selector. -/
theorem suggest_selector_ignored_for_brands :
    suggest "sony" "lost" suggestDB = (["Sony"], 3) ∧ suggestDB.lostItems = [] := by
  decide

/-- Claim C8 (amended): the target-set selector gates only the two title queries.
The two distinct-brand queries run against BOTH collections unconditionally on every
suggestion request with a usable fragment, so a brand value of a non-selected
collection can surface among the suggestions. -/
theorem suggest_brand_reads_unconditional (q ty : String) (db : DB)
    (h : ¬(q = "" ∨ q.length < 2)) :
    (suggest q ty db).2 =
      (if (ty == "all" || ty == "lost" || ty == "") = true then 1 else 0) +
        ((if (ty == "all" || ty == "found" || ty == "") = true then 1 else 0) + 2) := by
  push_neg at h
  obtain ⟨h1, h2⟩ := h
  have h3 : ¬q.length < 2 := by omega
  simp [suggest, h1, h3, Nat.add_assoc]

/-- Witness for the amended C8 claim at the lost-only selector. -/
theorem suggest_brand_reads_unconditional_witness :
    (suggest "sony" "lost" suggestDB).2 =
      (if (("lost" == "all" || "lost" == "lost" || "lost" == "") = true) then 1 else 0) +
        ((if (("lost" == "all" || "lost" == "found" || "lost" == "") = true) then 1 else 0) + 2) :=
  suggest_brand_reads_unconditional "sony" "lost" suggestDB (by decide)

/-- Claim C9 counterexample: the term "a.c" satisfies the free-text predicate
against a record titled "abc" even though "a.c" occurs literally in none of its
three text fields — the dot of the term is interpreted as a regex wildcard, not as
a literal character. -/
theorem textSearch_dot_is_wildcard :
    textSearch dotParams.q abcLost.title abcLost.description abcLost.additionalDetails = true ∧
    lostSearchPred dotParams abcLost = true ∧
    containsCI abcLost.title dotParams.q = false ∧
    containsCI abcLost.description dotParams.q = false ∧
    containsCI abcLost.additionalDetails dotParams.q = false := by
  decide

/-- Claim C9 (amended): the free-text term is interpreted as a case-insensitive
regular-expression pattern, not as a literal string. For terms free of every
ECMAScript pattern metacharacter — no dot, bar, star, plus, question mark,
parenthesis, bracket, brace, backslash, caret or dollar, the regime where a JS
regex matches exactly literally — the text clause holds exactly when the term
occurs case-insensitively as a literal substring of title, description or
additionalDetails (a disjunction over the three fields); and whenever a term is
present the lost-collection search predicate is exactly the conjunction of the
text clause with the structured filters. -/
theorem textSearch_characterization :
    (∀ (q t d a : String), (∀ c ∈ q.data, c ∉ regexMetaChars) →
      textSearch q t d a = (containsCI t q || containsCI d q || containsCI a q)) ∧
    (∀ (p : SearchParams) (i : LostItem), p.q ≠ "" →
      (lostSearchPred p i = true ↔
        (textSearch p.q i.title i.description i.additionalDetails = true ∧
          structuredLostFilters p i = true))) := by
  constructor
  · intro q t d a hmeta
    have hdot : '.' ∉ q.data := fun hc => hmeta '.' hc (by decide)
    have hbar : '|' ∉ q.data := fun hc => hmeta '|' hc (by decide)
    rw [textSearch, regexTest_no_meta q.data t.data hdot hbar,
      regexTest_no_meta q.data d.data hdot hbar, regexTest_no_meta q.data a.data hdot hbar]
    rfl
  · intro p i hq
    have hq2 : (p.q == "") = false := by simp [hq]
    simp [lostSearchPred, structuredLostFilters, hq2, Bool.and_eq_true, and_assoc]

/-- Witness for the amended C9 claim: the literal-substring characterization at a
term free of all pattern metacharacters, and the conjunction shape at the dot-term
request. -/
theorem textSearch_characterization_witness :
    (textSearch "phone" "iPhone 14" "" "" =
      (containsCI "iPhone 14" "phone" || containsCI "" "phone" || containsCI "" "phone")) ∧
    (lostSearchPred dotParams abcLost = true ↔
      (textSearch dotParams.q abcLost.title abcLost.description abcLost.additionalDetails = true ∧
        structuredLostFilters dotParams abcLost = true)) :=
  ⟨textSearch_characterization.1 "phone" "iPhone 14" "" "" (by decide),
    textSearch_characterization.2 dotParams abcLost (by decide)⟩

/-- Claim C4: for every lost-item identifier and every database snapshot, a found
item whose status differs from "unclaimed" never appears in the matches list of GET
/api/search/matches, regardless of its score: the coarse match query restricts the
candidate set to unclaimed items before any scoring happens. -/
theorem findMatches_only_unclaimed (lostItemId : String) (db : DB)
    (lostItem : LostItem) (ms : List ScoredMatch)
    (h : (findMatches lostItemId db).1 = .ok lostItem ms) :
    ∀ m ∈ ms, m.item.status = "unclaimed" := by
  intro m hm
  rw [findMatches] at h
  split at h
  · exact absurd h (by simp)
  · cases hfind : db.lostItems.find? (fun i => i.id == lostItemId) with
    | none => rw [hfind] at h; exact absurd h (by simp)
    | some li =>
      rw [hfind] at h
      simp only [MatchesResponse.ok.injEq] at h
      obtain ⟨rfl, rfl⟩ := h
      have hm1 : m ∈ topMatches (scoredMatches li (potentialMatches li db)) :=
        (List.take_sublist 10 _).subset hm
      rw [topMatches] at hm1
      have hm2 : m ∈ (scoredMatches li (potentialMatches li db)).filter
          (fun m => 30 ≤ m.matchScore) :=
        (mem_sortDescBy (fun m => m.matchScore) m _).mp hm1
      have hm3 := List.mem_of_mem_filter hm2
      rw [scoredMatches] at hm3
      obtain ⟨f, hf, rfl⟩ := List.mem_map.mp hm3
      have hf1 : f ∈ sortDescBy (fun f => f.dateFound)
          (db.foundItems.filter (matchQuery li)) := by
        rw [potentialMatches] at hf
        exact (List.take_sublist 20 _).subset hf
      have hf2 : f ∈ db.foundItems.filter (matchQuery li) :=
        (mem_sortDescBy (fun f => f.dateFound) f _).mp hf1
      have hf3 := (List.mem_filter.mp hf2).2
      simp only [matchQuery, Bool.and_eq_true, beq_iff_eq] at hf3
      exact hf3.1.1

/-- Witness for C4 at the end-to-end scenario snapshot. -/
theorem findMatches_only_unclaimed_witness :
    ({ item := foundIphone, matchScore := 100 } : ScoredMatch).item.status = "unclaimed" :=
  findMatches_only_unclaimed "L1" scenarioDB lostIphone
    [{ item := foundIphone, matchScore := 100 }] (by decide)
    { item := foundIphone, matchScore := 100 } (by simp)

/-- Claim C3: the matches list of GET /api/search/matches is sorted non-increasing
by matchScore; among equal scores the more recent dateFound comes first; and among
equal scores (hence also equal dates) the original retrieval order — newest
dateFound first, as delivered by the repository — is preserved verbatim: the slice
of the output at any fixed score value is a prefix of the thresholded scored
candidate list in retrieval order, because the score sort is stable. -/
theorem findMatches_ordering (lostItemId : String) (db : DB)
    (lostItem : LostItem) (ms : List ScoredMatch)
    (h : (findMatches lostItemId db).1 = .ok lostItem ms) :
    ms.Pairwise (fun a b => b.matchScore ≤ a.matchScore) ∧
    ms.Pairwise (fun a b => a.matchScore = b.matchScore → b.item.dateFound ≤ a.item.dateFound) ∧
    (∀ s : Nat,
      List.IsPrefix (ms.filter (fun m => decide (m.matchScore = s)))
        (((scoredMatches lostItem (potentialMatches lostItem db)).filter
            (fun m => 30 ≤ m.matchScore)).filter (fun m => decide (m.matchScore = s)))) := by
  rw [findMatches] at h
  split at h
  · exact absurd h (by simp)
  · cases hfind : db.lostItems.find? (fun i => i.id == lostItemId) with
    | none => rw [hfind] at h; exact absurd h (by simp)
    | some li =>
      rw [hfind] at h
      simp only [MatchesResponse.ok.injEq] at h
      obtain ⟨rfl, rfl⟩ := h
      refine ⟨?_, ?_, ?_⟩
      · simp only [topMatches]
        have hs := sortDescBy_sorted (fun m : ScoredMatch => m.matchScore)
          ((scoredMatches li (potentialMatches li db)).filter (fun m => 30 ≤ m.matchScore))
        exact hs.sublist (List.take_sublist 10 _)
      · have hdate : (potentialMatches li db).Pairwise
            (fun a b => b.dateFound ≤ a.dateFound) := by
          rw [potentialMatches]
          have hs := sortDescBy_sorted (fun f : FoundItem => f.dateFound)
            (db.foundItems.filter (matchQuery li))
          exact hs.sublist (List.take_sublist 20 _)
        have hS : (scoredMatches li (potentialMatches li db)).Pairwise
            (fun a b => b.item.dateFound ≤ a.item.dateFound) := by
          rw [scoredMatches]
          exact List.pairwise_map.mpr hdate
        have hP : ((scoredMatches li (potentialMatches li db)).filter
            (fun m => 30 ≤ m.matchScore)).Pairwise
            (fun a b => b.item.dateFound ≤ a.item.dateFound) :=
          hS.sublist (List.filter_sublist _)
        have hW := sortDescBy_pairwise (fun m : ScoredMatch => m.matchScore)
          (fun a b => b.item.dateFound ≤ a.item.dateFound)
          ((scoredMatches li (potentialMatches li db)).filter (fun m => 30 ≤ m.matchScore)) hP
        have hW2 : (sortDescBy (fun m : ScoredMatch => m.matchScore)
            ((scoredMatches li (potentialMatches li db)).filter
              (fun m => 30 ≤ m.matchScore))).Pairwise
            (fun a b => a.matchScore = b.matchScore → b.item.dateFound ≤ a.item.dateFound) :=
          hW.imp (fun hab heq =>
            hab.elim (fun hlt => absurd heq (ne_of_gt hlt)) (fun hand => hand.2))
        simp only [topMatches]
        exact hW2.sublist (List.take_sublist 10 _)
      · intro s
        simp only [topMatches]
        rw [← sortDescBy_filter_key (fun m => m.matchScore) s
          ((scoredMatches li (potentialMatches li db)).filter (fun m => 30 ≤ m.matchScore))]
        exact (List.take_prefix 10 _).filter _

/-- Witness for C3 at the end-to-end scenario snapshot, with the stability prefix
property instantiated at score value 100. -/
theorem findMatches_ordering_witness :
    ([{ item := foundIphone, matchScore := 100 }] : List ScoredMatch).Pairwise
        (fun a b => b.matchScore ≤ a.matchScore) ∧
    ([{ item := foundIphone, matchScore := 100 }] : List ScoredMatch).Pairwise
        (fun a b => a.matchScore = b.matchScore → b.item.dateFound ≤ a.item.dateFound) ∧
    List.IsPrefix
      (([{ item := foundIphone, matchScore := 100 }] : List ScoredMatch).filter
        (fun m => decide (m.matchScore = 100)))
      (((scoredMatches lostIphone (potentialMatches lostIphone scenarioDB)).filter
          (fun m => 30 ≤ m.matchScore)).filter (fun m => decide (m.matchScore = 100))) := by
  have h := findMatches_ordering "L1" scenarioDB lostIphone
    [{ item := foundIphone, matchScore := 100 }] (by decide)
  exact ⟨h.1, h.2.1, h.2.2 100⟩
